import Mathlib

/-!
Verification of the panoramix reconciliation core: a shallow embedding of
`src/element_tree.rs`, `src/elements/component.rs`, `src/elements/empty.rs`
and `src/elements/flex.rs`, followed by theorems checking the specification
claims against it.

Modelling conventions:
- Rust `Vec<T>` is `List T`; `Vec::push` appends at the end (`vecPush`) and
  `Vec::pop` removes and returns the last entry (`vecPop`).
- `&dyn Any` with `downcast_ref::<T>` is modelled by a small closed universe
  `Ty` of state types with a tagged value `DynAny`; a failed downcast
  (which `unwrap` turns into a panic in the source) is `none`.
- Trait methods taking `&mut` arguments are modelled by state passing: the
  function returns the updated values of everything the Rust code may mutate.
- Generic trait bounds (`Child: Element`, `Item: VirtualDom`) are modelled by
  passing the child's relevant method as a function argument.
- Tuple destructuring in the source is rendered with `.1`/`.2` projections,
  which is definitionally the same on pairs.
-/

/-- Closed universe of component local-state types used by the development,
standing in for Rust `std::any::Any` type tags. -/
inductive Ty
  | nat
  | str
  | bool
  | unit
  deriving DecidableEq

/-- Interpretation of a type tag as a Lean type. -/
def Ty.denote : Ty → Type
  | .nat => Nat
  | .str => String
  | .bool => Bool
  | .unit => Unit

/-- Rust `Default::default()` for each modelled local-state type. -/
def Ty.defaultVal : (t : Ty) → t.denote
  | .nat => (0 : Nat)
  | .str => ("" : String)
  | .bool => Bool.false
  | .unit => Unit.unit

/-- A type-erased value, modelling `&dyn Any`: a type tag plus a value of the
tagged type. -/
structure DynAny where
  ty : Ty
  val : ty.denote

/-- Model of `<dyn Any>::downcast_ref::<T>`: succeeds exactly when the dynamic
tag matches the requested type. -/
def downcast_ref (T : Ty) (a : DynAny) : Option T.denote :=
  if h : a.ty = T then some (h ▸ a.val) else none

/-- Context type passed to all components when building them
(`element_tree.rs`, `CompCtx`). -/
structure CompCtx where
  local_state : DynAny

/-- Model of `CompCtx::use_local_state::<T>`
(`self.local_state.downcast_ref::<T>().unwrap()`): `none` models the panic of
`unwrap` on a type mismatch. -/
def CompCtx.use_local_state (ctx : CompCtx) (T : Ty) : Option T.denote :=
  downcast_ref T ctx.local_state

/-- Model of `Vec::push`: append at the end. -/
def vecPush {α : Type} (v : List α) (x : α) : List α :=
  v ++ [x]

/-- Model of `Vec::pop`: remove and return the last element, `none` on an
empty vector. -/
def vecPop {α : Type} (v : List α) : Option α × List α :=
  (v.getLast?, v.dropLast)

/-- Model of `ProcessEventCtx` (`element_tree.rs`): the event queue and
component state the two `&mut` fields point at. -/
structure ProcessEventCtx (Ev St : Type) where
  event_queue : List Ev
  state : St

/-- Default body of `Element::get_component_state` (`element_tree.rs`,
lines 110-112): always `None`. -/
def Element.default_get_component_state {Agg St : Type} (_state : Agg) : Option St :=
  none

/-- Default body of `VirtualDom::process_event` (`element_tree.rs`): the
method body is empty, so every argument is left unchanged. -/
def VirtualDom.default_process_event {Ev St Agg W Cx : Type}
    (comp_ctx : ProcessEventCtx Ev St) (children_state : Agg)
    (widget_seq : W) (cx : Cx) : ProcessEventCtx Ev St × Agg × W × Cx :=
  (comp_ctx, children_state, widget_seq, cx)

/-- Default body of `VirtualDom::process_local_event` (`element_tree.rs`):
returns `None` and leaves every argument unchanged. -/
def VirtualDom.default_process_local_event {Ev Agg W Cx : Type}
    (children_state : Agg) (widget_seq : W) (cx : Cx) :
    Option Ev × Agg × W × Cx :=
  (none, children_state, widget_seq, cx)

/-- The `EmptyElement` placeholder element (`empty.rs`). -/
structure EmptyElement where
  deriving DecidableEq

/-- The virtual-dom marker produced by building an `EmptyElement`
(`empty.rs`, `EmptyElementData`). -/
structure EmptyElementData where
  deriving DecidableEq

/-- The empty widget sequence (`crate::widgets::EmptySequence`), a unit type:
it holds no widget handles. -/
structure EmptySequence where
  deriving DecidableEq

/-- `EmptyElement::new` (`empty.rs`). -/
def EmptyElement.new : EmptyElement :=
  ⟨⟩

/-- `EmptyElement::build` (`empty.rs`, lines 53-55). -/
def EmptyElement.build (_self : EmptyElement) (_prev_state : Unit) :
    EmptyElementData × Unit :=
  (⟨⟩, ())

/-- `EmptyElementData::init_tree` (`empty.rs`). -/
def EmptyElementData.init_tree (_self : EmptyElementData) : EmptySequence :=
  ⟨⟩

/-- `EmptyElementData::reconcile` (`empty.rs`): the body is empty, so neither
the widget sequence nor the reconcile context changes; the context is kept
abstract as a type parameter. -/
def EmptyElementData.reconcile {Ctx : Type} (_self _other : EmptyElementData)
    (widget_seq : EmptySequence) (ctx : Ctx) : EmptySequence × Ctx :=
  (widget_seq, ctx)

/-- The `ComponentOutput` wrapper element (`component.rs`): the zero-sized
`Metadata` marker field is omitted. -/
structure ComponentOutput (Child : Type) where
  child : Child
  name : String

/-- The virtual-dom node produced by building a `ComponentOutput`
(`component.rs`, `ComponentOutputData`). -/
structure ComponentOutputData (Child : Type) where
  child : Child
  name : String

/-- `ComponentOutput::build` (`component.rs`, lines 172-186). Its aggregate
state is the triple `(event queue, local state, child aggregate state)`;
`childBuild` stands for the child element's `build`. -/
def ComponentOutput.build {Ev St Child CA COut : Type}
    (childBuild : Child → CA → COut × CA)
    (self : ComponentOutput Child) (prev_state : List Ev × St × CA) :
    ComponentOutputData COut × (List Ev × St × CA) :=
  let r := childBuild self.child prev_state.2.2
  (⟨r.1, self.name⟩, ([], prev_state.2.1, r.2))

/-- `ComponentOutput::get_component_state` (`component.rs`, lines 188-190):
`Some(&state.1)`, the middle slot of the triple. -/
def ComponentOutput.get_component_state {Ev St CA : Type}
    (state : List Ev × St × CA) : Option St :=
  some state.2.1

/-- `ComponentOutputData::process_local_event` (`component.rs`, lines
221-230): pops one event off the queue in the first slot of the aggregate
state; the widget sequence and global event context are untouched. -/
def ComponentOutputData.process_local_event {Ev St CA W Cx COut : Type}
    (_self : ComponentOutputData COut)
    (children_state : List Ev × St × CA) (widget_seq : W) (cx : Cx) :
    Option Ev × (List Ev × St × CA) × W × Cx :=
  let r := vecPop children_state.1
  (r.1, (r.2, children_state.2.1, children_state.2.2), widget_seq, cx)

/-- `ComponentOutputData::process_event` (`component.rs`, lines 232-245):
builds a fresh `ProcessEventCtx` aimed at the queue and local-state slots of
its own aggregate state and hands it to the child together with the child
aggregate-state slot; the parent context is ignored and returned unchanged.
`childProcess` stands for the child node's `process_event`. -/
def ComponentOutputData.process_event {CpEv CpSt Ev St CA W Cx COut : Type}
    (childProcess : ProcessEventCtx Ev St → CA → W → Cx →
      ProcessEventCtx Ev St × CA × W × Cx)
    (_self : ComponentOutputData COut)
    (comp_ctx : ProcessEventCtx CpEv CpSt)
    (children_state : List Ev × St × CA) (widget_seq : W) (cx : Cx) :
    ProcessEventCtx CpEv CpSt × (List Ev × St × CA) × W × Cx :=
  let r := childProcess ⟨children_state.1, children_state.2.1⟩
    children_state.2.2 widget_seq cx
  (comp_ctx, (r.1.event_queue, r.1.state, r.2.1), r.2.2.1, r.2.2.2)

/-- `ComponentHolder::build` (`component.rs`, lines 137-150): reads the
current component's local state out of the previous aggregate state via the
returned tree's `get_component_state` (falling back on the type's default),
wraps it in a `CompCtx`, calls the component function and builds the tree it
returns. `stTy` is the component's local-state type, `get_component_state`
and `treeBuild` stand for the returned tree's static method and `build`. -/
def ComponentHolder.build {Props Tree Agg Out : Type} (stTy : Ty)
    (get_component_state : Agg → Option stTy.denote)
    (treeBuild : Tree → Agg → Out × Agg)
    (component_fn : CompCtx → Props → Tree)
    (props : Props) (prev_state : Agg) : Out × Agg :=
  let local_state := (get_component_state prev_state).getD stTy.defaultVal
  treeBuild (component_fn ⟨⟨stTy, local_state⟩⟩ props) prev_state

/-- Flex axis (`crate::widgets::flex::Axis`; variants as used in
`flex.rs`). -/
inductive Axis
  | Horizontal
  | Vertical
  deriving DecidableEq

/-- Cross-axis alignment (`crate::widgets::flex::CrossAxisAlignment`;
variants as used in `flex.rs` plus the usual druid alternatives). -/
inductive CrossAxisAlignment
  | Start
  | Center
  | End
  deriving DecidableEq

/-- Main-axis alignment (`crate::widgets::flex::MainAxisAlignment`; variants
as used in `flex.rs` plus the usual druid alternatives). -/
inductive MainAxisAlignment
  | Start
  | Center
  | End
  | SpaceBetween
  deriving DecidableEq

/-- The native flex container (`crate::widgets::flex::Flex`), with the fields
`flex.rs` constructs and mutates. -/
structure Flex (W : Type) where
  direction : Axis
  cross_alignment : CrossAxisAlignment
  main_alignment : MainAxisAlignment
  fill_major_axis : Bool
  children_seq : W

/-- `crate::widgets::SingleWidget`: a single-widget sequence wrapping a
widget pod; `widget.0.widget_mut()` in the source gives mutable access to the
wrapped widget, modelled by the field `pod`. -/
structure SingleWidget (W : Type) where
  pod : W

/-- `SingleWidget::new`. -/
def SingleWidget.new {W : Type} (w : W) : SingleWidget W :=
  ⟨w⟩

/-- The `Row` virtual-dom node (`flex.rs`, `RowData`); the `PhantomData`
marker field is omitted. -/
structure RowData (Item : Type) where
  child : Item

/-- The `Column` virtual-dom node (`flex.rs`, `ColumnData`); the
`PhantomData` marker field is omitted. -/
structure ColumnData (Item : Type) where
  child : Item

/-- `RowData::init_tree` (`flex.rs`, lines 108-120): one horizontal flex
widget, center cross alignment, start main alignment, non-filling major axis,
whose children are the child's widget sequence. `childInit` stands for the
child's `init_tree`. -/
def RowData.init_tree {Item Wseq DomState : Type}
    (childInit : Item → Wseq × DomState)
    (self : RowData Item) : SingleWidget (Flex Wseq) × DomState :=
  let r := childInit self.child
  (SingleWidget.new
    { direction := Axis.Horizontal
      cross_alignment := CrossAxisAlignment.Center
      main_alignment := MainAxisAlignment.Start
      fill_major_axis := false
      children_seq := r.1 }, r.2)

/-- `RowData::apply_diff` (`flex.rs`, lines 122-133): delegates to the
child's `apply_diff` on the flex widget's `children_seq` field; every other
field of the flex widget is left as it was. `childDiff` stands for the
child's `apply_diff`. -/
def RowData.apply_diff {Item Wseq DomState : Type}
    (childDiff : Item → Item → DomState → Wseq → DomState × Wseq)
    (self other : RowData Item) (prev_state : DomState)
    (widget : SingleWidget (Flex Wseq)) :
    DomState × SingleWidget (Flex Wseq) :=
  let r := childDiff self.child other.child prev_state widget.pod.children_seq
  (r.1, SingleWidget.new { widget.pod with children_seq := r.2 })

/-- `ColumnData::init_tree` (`flex.rs`, lines 178-190): as for rows but with
a vertical axis. -/
def ColumnData.init_tree {Item Wseq DomState : Type}
    (childInit : Item → Wseq × DomState)
    (self : ColumnData Item) : SingleWidget (Flex Wseq) × DomState :=
  let r := childInit self.child
  (SingleWidget.new
    { direction := Axis.Vertical
      cross_alignment := CrossAxisAlignment.Center
      main_alignment := MainAxisAlignment.Start
      fill_major_axis := false
      children_seq := r.1 }, r.2)

/-- `ColumnData::apply_diff` (`flex.rs`, lines 192-203). -/
def ColumnData.apply_diff {Item Wseq DomState : Type}
    (childDiff : Item → Item → DomState → Wseq → DomState × Wseq)
    (self other : ColumnData Item) (prev_state : DomState)
    (widget : SingleWidget (Flex Wseq)) :
    DomState × SingleWidget (Flex Wseq) :=
  let r := childDiff self.child other.child prev_state widget.pod.children_seq
  (r.1, SingleWidget.new { widget.pod with children_seq := r.2 })

/-- Popping a vector right after pushing `e` returns `e` and restores the
original vector: `Vec::push`/`Vec::pop` act on the same end. -/
theorem vecPop_push {α : Type} (q : List α) (e : α) :
    vecPop (vecPush q e) = (some e, q) := by
  simp [vecPop, vecPush]

/-- C1: `ComponentOutputData::process_event` hands the child a
`ProcessEventCtx` whose queue is the first slot of the aggregate state and
writes the child's resulting queue back into that slot (so events a child
emits by pushing are appended there), and each call to
`process_local_event` removes and returns exactly one queued event in LIFO
order (the most recently pushed event first), returning `none` when the
queue is empty. -/
theorem componentOutputData_event_queue_lifo
    {CpEv CpSt Ev St CA W Cx COut : Type}
    (childProcess : ProcessEventCtx Ev St → CA → W → Cx →
      ProcessEventCtx Ev St × CA × W × Cx)
    (self : ComponentOutputData COut) (comp_ctx : ProcessEventCtx CpEv CpSt)
    (emitted q : List Ev) (s : St) (ca : CA) (w : W) (cx : Cx) (e : Ev) :
    (ComponentOutputData.process_event childProcess self comp_ctx
        (q, s, ca) w cx).2.1.1
      = (childProcess ⟨q, s⟩ ca w cx).1.event_queue
    ∧ (ComponentOutputData.process_event
        (fun ctx ca0 w0 cx0 =>
          (⟨ctx.event_queue ++ emitted, ctx.state⟩, ca0, w0, cx0))
        self comp_ctx (q, s, ca) w cx).2.1.1 = q ++ emitted
    ∧ ComponentOutputData.process_local_event self (vecPush q e, s, ca) w cx
      = (some e, (q, s, ca), w, cx)
    ∧ ComponentOutputData.process_local_event self (([] : List Ev), s, ca) w cx
      = (none, ([], s, ca), w, cx) := by
  refine ⟨rfl, rfl, ?_, rfl⟩
  simp [ComponentOutputData.process_local_event, vecPop_push]

/-- C2: building a component through `ComponentHolder::build` with a
`ComponentOutput` tree reads the local-state slot of the previous aggregate
state (the type default `d` on a first build, whose default aggregate state
carries `d` in that slot) and passes exactly that value to the component
function inside the `CompCtx`; the next state's local slot is carried over
unchanged, so the first build yields local slot `d` and a second build fed
the next state reads whatever the slot then holds. -/
theorem componentHolder_local_state_roundtrip
    {Ev Child CA COut Props : Type} (stTy : Ty)
    (childBuild : Child → CA → COut × CA)
    (component_fn : CompCtx → Props → ComponentOutput Child)
    (props : Props) (q : List Ev) (sl : stTy.denote) (ca : CA) :
    ComponentHolder.build stTy ComponentOutput.get_component_state
        (ComponentOutput.build childBuild) component_fn props (q, sl, ca)
      = ComponentOutput.build childBuild
          (component_fn ⟨⟨stTy, sl⟩⟩ props) (q, sl, ca)
    ∧ (ComponentHolder.build stTy ComponentOutput.get_component_state
        (ComponentOutput.build childBuild) component_fn props
        (q, sl, ca)).2.2.1 = sl
    ∧ ComponentHolder.build stTy ComponentOutput.get_component_state
        (ComponentOutput.build childBuild) component_fn props
        (([] : List Ev), stTy.defaultVal, ca)
      = ComponentOutput.build childBuild
          (component_fn ⟨⟨stTy, stTy.defaultVal⟩⟩ props)
          ([], stTy.defaultVal, ca)
    ∧ (ComponentHolder.build stTy ComponentOutput.get_component_state
        (ComponentOutput.build childBuild) component_fn props
        (([] : List Ev), stTy.defaultVal, ca)).2.2.1 = stTy.defaultVal
    ∧ CompCtx.use_local_state ⟨⟨stTy, sl⟩⟩ stTy = some sl := by
  refine ⟨rfl, rfl, rfl, rfl, ?_⟩
  simp [CompCtx.use_local_state, downcast_ref]

/-- C3: `CompCtx::use_local_state::<T>` returns the stored local state
whenever `T` matches the dynamic type of the stored value, and panics
(modelled as `none`) exactly when it does not; there is no other outcome. -/
theorem use_local_state_type_match (T : Ty) (ctx : CompCtx) :
    (∀ h : ctx.local_state.ty = T,
      ctx.use_local_state T = some (h ▸ ctx.local_state.val))
    ∧ (ctx.local_state.ty ≠ T → ctx.use_local_state T = none) := by
  constructor
  · intro h
    simp only [CompCtx.use_local_state, downcast_ref]
    rw [dif_pos h]
  · intro h
    simp only [CompCtx.use_local_state, downcast_ref]
    rw [dif_neg h]

/-- C3 witness: a matching downcast on a concrete context returns the stored
value and a mismatched one fails. -/
theorem use_local_state_type_match_witness :
    CompCtx.use_local_state ⟨⟨Ty.nat, (5 : Nat)⟩⟩ Ty.nat = some (5 : Nat)
    ∧ CompCtx.use_local_state ⟨⟨Ty.nat, (5 : Nat)⟩⟩ Ty.str = none :=
  ⟨(use_local_state_type_match Ty.nat ⟨⟨Ty.nat, (5 : Nat)⟩⟩).1 rfl,
   (use_local_state_type_match Ty.str ⟨⟨Ty.nat, (5 : Nat)⟩⟩).2 (by decide)⟩

/-- C4: `build` is deterministic: building structurally equal elements with
equal previous states yields equal outputs and next states, shown for
`ComponentOutput::build` and `EmptyElement::build` (both embedded as pure
functions, as the source has no hidden I/O). -/
theorem build_deterministic {Ev St Child CA COut : Type}
    (childBuild : Child → CA → COut × CA) (e : ComponentOutput Child)
    (s1 s2 : List Ev × St × CA) (ee : EmptyElement) (t1 t2 : Unit)
    (h1 : s1 = s2) (h2 : t1 = t2) :
    ComponentOutput.build childBuild e s1
      = ComponentOutput.build childBuild e s2
    ∧ EmptyElement.build ee t1 = EmptyElement.build ee t2 := by
  subst h1
  subst h2
  exact ⟨rfl, rfl⟩

/-- C4 witness: determinism instantiated at a concrete component and
state. -/
theorem build_deterministic_witness :
    ComponentOutput.build (fun (_ : Unit) (s : Unit) => ((), s))
        ⟨(), "MyComponent"⟩ (([] : List Unit), (0 : Nat), ())
      = ComponentOutput.build (fun (_ : Unit) (s : Unit) => ((), s))
        ⟨(), "MyComponent"⟩ ([], 0, ())
    ∧ EmptyElement.build EmptyElement.new ()
      = EmptyElement.build EmptyElement.new () :=
  build_deterministic (fun (_ : Unit) (s : Unit) => ((), s))
    ⟨(), "MyComponent"⟩ ([], 0, ()) ([], 0, ()) EmptyElement.new () () rfl rfl

/-- C5: `RowData::apply_diff` and `ColumnData::apply_diff` only delegate into
the flex widget's `children_seq` (with the child's diff result) and return
the child's dom state; the flex widget's `direction`, `cross_alignment`,
`main_alignment` and `fill_major_axis` fields are never modified. -/
theorem flex_apply_diff_preserves_config {Item Wseq DomState : Type}
    (childDiff : Item → Item → DomState → Wseq → DomState × Wseq)
    (self other : RowData Item) (cself cother : ColumnData Item)
    (prev_state cprev_state : DomState)
    (widget cwidget : SingleWidget (Flex Wseq)) :
    (RowData.apply_diff childDiff self other prev_state widget).2.pod.direction
      = widget.pod.direction
    ∧ (RowData.apply_diff childDiff self other prev_state
        widget).2.pod.cross_alignment = widget.pod.cross_alignment
    ∧ (RowData.apply_diff childDiff self other prev_state
        widget).2.pod.main_alignment = widget.pod.main_alignment
    ∧ (RowData.apply_diff childDiff self other prev_state
        widget).2.pod.fill_major_axis = widget.pod.fill_major_axis
    ∧ (RowData.apply_diff childDiff self other prev_state
        widget).2.pod.children_seq
      = (childDiff self.child other.child prev_state
          widget.pod.children_seq).2
    ∧ (RowData.apply_diff childDiff self other prev_state widget).1
      = (childDiff self.child other.child prev_state
          widget.pod.children_seq).1
    ∧ (ColumnData.apply_diff childDiff cself cother cprev_state
        cwidget).2.pod.direction = cwidget.pod.direction
    ∧ (ColumnData.apply_diff childDiff cself cother cprev_state
        cwidget).2.pod.cross_alignment = cwidget.pod.cross_alignment
    ∧ (ColumnData.apply_diff childDiff cself cother cprev_state
        cwidget).2.pod.main_alignment = cwidget.pod.main_alignment
    ∧ (ColumnData.apply_diff childDiff cself cother cprev_state
        cwidget).2.pod.fill_major_axis = cwidget.pod.fill_major_axis
    ∧ (ColumnData.apply_diff childDiff cself cother cprev_state
        cwidget).2.pod.children_seq
      = (childDiff cself.child cother.child cprev_state
          cwidget.pod.children_seq).2
    ∧ (ColumnData.apply_diff childDiff cself cother cprev_state cwidget).1
      = (childDiff cself.child cother.child cprev_state
          cwidget.pod.children_seq).1 :=
  ⟨rfl, rfl, rfl, rfl, rfl, rfl, rfl, rfl, rfl, rfl, rfl, rfl⟩

/-- C6: `RowData::init_tree` constructs exactly one flex widget with
horizontal direction, center cross alignment, start main alignment and a
non-filling major axis, whose children are exactly the child's widget
sequence; `ColumnData::init_tree` does the same with vertical direction. -/
theorem flex_init_tree_config {Item Wseq DomState : Type}
    (childInit : Item → Wseq × DomState)
    (self : RowData Item) (cself : ColumnData Item) :
    (RowData.init_tree childInit self).1.pod.direction = Axis.Horizontal
    ∧ (RowData.init_tree childInit self).1.pod.cross_alignment
      = CrossAxisAlignment.Center
    ∧ (RowData.init_tree childInit self).1.pod.main_alignment
      = MainAxisAlignment.Start
    ∧ (RowData.init_tree childInit self).1.pod.fill_major_axis = false
    ∧ (RowData.init_tree childInit self).1.pod.children_seq
      = (childInit self.child).1
    ∧ (RowData.init_tree childInit self).2 = (childInit self.child).2
    ∧ (ColumnData.init_tree childInit cself).1.pod.direction = Axis.Vertical
    ∧ (ColumnData.init_tree childInit cself).1.pod.cross_alignment
      = CrossAxisAlignment.Center
    ∧ (ColumnData.init_tree childInit cself).1.pod.main_alignment
      = MainAxisAlignment.Start
    ∧ (ColumnData.init_tree childInit cself).1.pod.fill_major_axis = false
    ∧ (ColumnData.init_tree childInit cself).1.pod.children_seq
      = (childInit cself.child).1
    ∧ (ColumnData.init_tree childInit cself).2 = (childInit cself.child).2 :=
  ⟨rfl, rfl, rfl, rfl, rfl, rfl, rfl, rfl, rfl, rfl, rfl, rfl⟩

/-- C7: the `ComponentOutput` aggregate state is the triple
`(event queue, local state, child aggregate state)` and
`ComponentOutput::get_component_state` returns `some` of its second slot,
while the trait-default `get_component_state` of non-wrapper elements
returns `none`. -/
theorem componentOutput_state_slot {Ev St CA Agg St2 : Type}
    (state : List Ev × St × CA) (agg : Agg) :
    ComponentOutput.get_component_state state = some state.2.1
    ∧ @Element.default_get_component_state Agg St2 agg = none :=
  ⟨rfl, rfl⟩

/-- C8: `EmptyElement::new().build(())` always returns the empty marker
`EmptyElementData` and unit state; `init_tree` on that marker returns the
empty widget sequence; and `reconcile` on it changes neither the widget
sequence nor the context, whatever the context is. -/
theorem emptyElement_identity {Ctx : Type} (other : EmptyElementData)
    (ws : EmptySequence) (ctx : Ctx) :
    EmptyElement.build EmptyElement.new () = (⟨⟩, ())
    ∧ (EmptyElement.build EmptyElement.new ()).1.init_tree = ⟨⟩
    ∧ EmptyElementData.reconcile (EmptyElement.build EmptyElement.new ()).1
        other ws ctx = (ws, ctx) :=
  ⟨rfl, rfl, rfl⟩

/-- C9: for every previous aggregate state, `ComponentOutput::build` returns
a next state whose event-queue slot is the empty vector (events still queued
are discarded) while the local-state slot is carried over unchanged and the
child slot is the child build's next state. -/
theorem componentOutput_build_clears_queue {Ev St Child CA COut : Type}
    (childBuild : Child → CA → COut × CA) (self : ComponentOutput Child)
    (q : List Ev) (sl : St) (ca : CA) :
    (ComponentOutput.build childBuild self (q, sl, ca)).2
      = ([], sl, (childBuild self.child ca).2) :=
  rfl

/-- C10: the trait-default `process_event` leaves the event context, the
children state, the widget sequence and the global context unchanged (in
particular the event queue gains nothing), and the trait-default
`process_local_event` returns `none` and modifies nothing: such nodes never
emit events. -/
theorem virtualDom_default_no_events {Ev St Agg W Cx Ev2 : Type}
    (comp_ctx : ProcessEventCtx Ev St) (agg : Agg) (w : W) (cx : Cx) :
    VirtualDom.default_process_event comp_ctx agg w cx
      = (comp_ctx, agg, w, cx)
    ∧ (VirtualDom.default_process_event comp_ctx agg w cx).1.event_queue
      = comp_ctx.event_queue
    ∧ @VirtualDom.default_process_local_event Ev2 Agg W Cx agg w cx
      = (none, agg, w, cx) :=
  ⟨rfl, rfl, rfl⟩
